import Mathlib

/-!
Verification of the polling/dispatch/retry engine of the
`nestjs-azure-storage-queue` repository, shallowly embedded from
`src/lib/services/azure-storage-queue.service.ts`.

Two models are developed:

1. A *dispatch model* of the per-message body of the poll loop
   (service lines 68-116): parsing of `messageText`, the handler call,
   the success-path delete, and the catch branch with its poison-delete
   policy.  External collaborators (the handler, `JSON.parse` of the
   JavaScript runtime, and the transport's `deleteMessage`) are supplied
   as an environment of outcome functions; the dispatch emits a trace of
   observable events plus an optional escaping exception.

2. A *manager model* of the service's lifecycle state
   (`pollingIntervals`, `isShuttingDown`) and the interleaving of the
   asynchronous `startPolling` / `stopPolling` / `onModuleDestroy`
   operations with the poll cycles.  JavaScript's run-to-completion
   semantics is modelled by making every synchronous segment between two
   `await` suspension points (or timer callbacks) one atomic step; an
   external schedule picks which enabled step runs next.
-/

namespace AzureStorageQueue

/-! ## Effective configuration values

Service lines 101-105:
`options.maxDequeueCount || this.config.defaultMaxDequeueCount || 5`.
JavaScript `||` falls through on every falsy value, so an explicit `0`
is replaced by the next default, and `undefined` (modelled as `none`)
likewise. -/

def jsOrNat : Option Nat → Nat → Nat
  | none, d => d
  | some n, d => if n = 0 then d else n

def effMaxDequeueCount (optMax cfgDefault : Option Nat) : Nat :=
  jsOrNat optMax (jsOrNat cfgDefault 5)

/-! ## Dispatch model -/

/-- A raw message as delivered by the transport's `receiveMessages`
(the fields of `DequeuedMessageItem` the service reads: lines 72-88).
Timestamps are abstract naturals. -/
structure RawMessage where
  messageId : String
  messageText : String
  popReceipt : String
  dequeueCount : Nat
  insertedOn : Nat
  expiresOn : Nat
deriving DecidableEq

/-- The `AzureStorageQueueMessage` record built at lines 77-83 and passed
to the handler.  At runtime the body is either the raw string (no JSON
parsing applied) or the parsed JSON value; `Sum.inl` is the raw string,
`Sum.inr` a parsed value of the collaborator-chosen type `B`. -/
structure DeliveredMessage (B : Type) where
  id : String
  body : Sum String B
  dequeueCount : Nat
  insertedOn : Nat
  expiresOn : Nat
deriving DecidableEq

/-- Observable events of one poll iteration, in program order.
`deleteCall` records the exact arguments passed to
`queueClient.deleteMessage` (lines 86-89 and 110-113).  The service
never calls any visibility-timeout-modifying transport operation
(`updateMessage` does not occur in the source), so no such event
exists. -/
inductive Event (B : Type)
  | handlerInvoked (m : DeliveredMessage B)
  | deleteCall (messageId : String) (popReceipt : String)
  | logDebug (messageId : String)
  | logError (messageId : String)
  | logWarn (messageId : String)
  | logPollError (queueName : String)
deriving DecidableEq

/-- What can escape the per-message `try`/`catch` (lines 69-115) into the
iteration-level `catch` (lines 118-120). -/
inductive Thrown
  | parseErr
  | handlerErr
  | deleteErr
deriving DecidableEq

/-- Outcomes of the external collaborators for one dispatch:
`jsonParse` models the JavaScript `JSON.parse` (throws or returns a
value), `handler` the user handler's promise outcome, and `deleteOk n`
the outcome of the n-th `deleteMessage` call issued during this
dispatch (`true` = resolves). -/
structure Env (B : Type) where
  jsonParse : String → Except Unit B
  handler : DeliveredMessage B → Except Unit Unit
  deleteOk : Nat → Bool

/-- JavaScript `text.startsWith('\x7b')`: the first character of the
string is the opening-brace character.  (`startsWith` with a
one-character argument is exactly a first-character test.) -/
def startsWithLbrace (s : String) : Bool :=
  match s.data with
  | [] => false
  | c :: _ => c = '\x7b'

/-- Lines 71-75: `messageText` is parsed as JSON exactly when it starts
with the character `\x7b` (the `typeof` guard is always true, the field
being a string); otherwise the raw string is passed through as the
body. -/
def parseBody {B : Type} (env : Env B) (text : String) : Except Unit (Sum String B) :=
  if startsWithLbrace text then (env.jsonParse text).map Sum.inr
  else Except.ok (Sum.inl text)

/-- Lines 77-83: the record handed to the handler. -/
def deliver {B : Type} (msg : RawMessage) (b : Sum String B) : DeliveredMessage B :=
  ⟨msg.messageId, b, msg.dequeueCount, msg.insertedOn, msg.expiresOn⟩

/-- Lines 94-115, the `catch` branch: log the error, and when
`message.dequeueCount >= maxDequeueCount` log a warning and issue a
poison delete.  `evs` are the events already emitted inside the `try`,
`delCount` how many delete calls this dispatch already issued (the
poison delete is then call number `delCount`).  A failing poison delete
escapes to the iteration-level catch. -/
def catchBranch {B : Type} (env : Env B) (maxDequeue : Nat) (msg : RawMessage)
    (evs : List (Event B)) (delCount : Nat) : List (Event B) × Option Thrown :=
  let evs1 := evs ++ [Event.logError msg.messageId]
  if maxDequeue ≤ msg.dequeueCount then
    (evs1 ++ [Event.logWarn msg.messageId,
              Event.deleteCall msg.messageId msg.popReceipt],
     if env.deleteOk delCount then none else some Thrown.deleteErr)
  else (evs1, none)

/-- Lines 69-115, the body of the `for` loop for one message: parse,
invoke the handler, delete on success (logging at debug level), and on
any thrown error run the catch branch. -/
def dispatchMessage {B : Type} (env : Env B) (maxDequeue : Nat) (msg : RawMessage) :
    List (Event B) × Option Thrown :=
  match parseBody env msg.messageText with
  | Except.error _ => catchBranch env maxDequeue msg [] 0
  | Except.ok b =>
    let dm := deliver msg b
    match env.handler dm with
    | Except.error _ =>
        catchBranch env maxDequeue msg [Event.handlerInvoked dm] 0
    | Except.ok _ =>
        if env.deleteOk 0 then
          ([Event.handlerInvoked dm,
            Event.deleteCall msg.messageId msg.popReceipt,
            Event.logDebug msg.messageId], none)
        else
          catchBranch env maxDequeue msg
            [Event.handlerInvoked dm,
             Event.deleteCall msg.messageId msg.popReceipt] 1

/-- Lines 67-117: the messages of a batch are dispatched strictly in
order; an exception escaping one message's `catch` aborts the `for`
loop (the remaining messages are skipped) and escapes. -/
def processBatch {B : Type} (env : Env B) (maxDequeue : Nat) :
    List RawMessage → List (Event B) × Option Thrown
  | [] => ([], none)
  | m :: ms =>
    let p := dispatchMessage env maxDequeue m
    match p.2 with
    | some e => (p.1, some e)
    | none =>
      let q := processBatch env maxDequeue ms
      (p.1 ++ q.1, q.2)

/-- Lines 61-120: one poll iteration's dispatch phase under the
iteration-level `try`/`catch`.  A receive failure skips the whole batch
and logs; an exception escaping the batch is likewise caught and
logged.  The result is a plain trace: nothing propagates to the code
after the `catch`. -/
def pollIterationOnce {B : Type} (env : Env B) (maxDequeue : Nat) (queueName : String)
    (recv : Except Unit (List RawMessage)) : List (Event B) :=
  match recv with
  | Except.error _ => [Event.logPollError queueName]
  | Except.ok msgs =>
    let p := processBatch env maxDequeue msgs
    match p.2 with
    | some _ => p.1 ++ [Event.logPollError queueName]
    | none => p.1

/-- The bodies passed to handler invocations in a trace, in order. -/
def handlerBodies {B : Type} : List (Event B) → List (Sum String B)
  | [] => []
  | Event.handlerInvoked dm :: t => dm.body :: handlerBodies t
  | _ :: t => handlerBodies t

/-- The number of delete calls in a trace. -/
def countDeletes {B : Type} : List (Event B) → Nat
  | [] => 0
  | Event.deleteCall _ _ :: t => countDeletes t + 1
  | _ :: t => countDeletes t

/-! ## Manager model

The lifecycle state of `AzureStorageQueueService` and the interleaving
of its asynchronous operations.  Each step is one synchronous JavaScript
segment (code between two `await` suspension points, or a whole timer /
lifecycle callback); within a segment nothing can interleave.

The segments of the source:

* `startCheck cid q` — `startPolling` from its entry through the
  duplicate-handle guard (lines 51-54); when the guard passes it issues
  `createQueueIfNotExists` (line 56) and suspends.  `cid` identifies the
  in-flight call.
* `startResume cid ok` — `startPolling` resumes after
  `createQueueIfNotExists` settles with outcome `ok`.  On rejection the
  `await` re-raises, so `startPolling` itself rejects (`startRejected`).
  On success it logs (line 128) and calls `poll()` (line 129), which runs
  synchronously through the shutdown check (line 59) up to issuing
  `receiveMessages` (line 62), then suspends.
* `timerFire tid` — a pending `setTimeout` timer fires: its `poll`
  callback runs the same synchronous prefix (shutdown check, then issue
  receive).  A cleared or already-fired timer cannot fire.
* `receiveDone pid` — the receive of poll task `pid` settles; whether it
  resolved (dispatch proceeds) or rejected (caught and logged at
  lines 118-120), control continues towards line 122, with the dispatch
  phase's own awaits abstracted into the next step.
* `dispatchDone pid` — poll task `pid` reaches lines 122-125: unless
  `isShuttingDown` it creates a fresh timer and stores its handle in
  `pollingIntervals` (overwriting any stale entry).
* `stop q` — `stopPolling` (lines 132-139), fully synchronous: if the
  map holds a handle for `q`, clear that timer and delete the entry
  (logging); otherwise do nothing at all.
* `shutdown` — `onModuleDestroy` (lines 141-148), fully synchronous:
  set `isShuttingDown`, clear every timer held in the map (logging per
  entry), clear the map.

Durations (pollingInterval, visibilityTimeout) are not modelled: the
schedule abstracts timer expiry as the `timerFire` step. -/

inductive PollPC
  | awaitingReceive
  | dispatching
deriving DecidableEq

structure PollTask where
  pid : Nat
  queue : String
  pc : PollPC
deriving DecidableEq

/-- The service's fields (`pollingIntervals`, `isShuttingDown`) plus the
runtime's continuation state: suspended `startPolling` calls, live poll
tasks, pending (set, unfired, uncleared) timers, and id counters. -/
structure MState where
  intervalMap : List (String × Nat)
  shuttingDown : Bool
  starts : List (Nat × String)
  polls : List PollTask
  pending : List (Nat × String)
  nextTimer : Nat
  nextPoll : Nat
deriving DecidableEq

inductive Step
  | startCheck (cid : Nat) (q : String)
  | startResume (cid : Nat) (ok : Bool)
  | timerFire (tid : Nat)
  | receiveDone (pid : Nat)
  | dispatchDone (pid : Nat)
  | stop (q : String)
  | shutdown
deriving DecidableEq

/-- Manager-level observable events. `startRejected q` is a
`startPolling` call returning a rejected promise to its caller;
`receiveIssued q` is a call of `receiveMessages` for queue `q`;
`timerSet q tid` is `setTimeout` plus the handle store of
lines 123-124. -/
inductive MEvent
  | ensureIssued (q : String)
  | warnAlreadyPolling (q : String)
  | startedLog (q : String)
  | startRejected (q : String)
  | receiveIssued (q : String)
  | timerSet (q : String) (tid : Nat)
  | stoppedLog (q : String)
deriving DecidableEq

/-- Association-list lookup (JavaScript `Map.get`). -/
def alookup : List (String × Nat) → String → Option Nat
  | [], _ => none
  | (k, v) :: t, q => if k = q then some v else alookup t q

/-- JavaScript `Map.set`: overwrite in place, else append. -/
def aset : List (String × Nat) → String → Nat → List (String × Nat)
  | [], q, v => [(q, v)]
  | (k, w) :: t, q, v => if k = q then (q, v) :: t else (k, w) :: aset t q v

/-- JavaScript `Map.delete` (keys are unique). -/
def aerase : List (String × Nat) → String → List (String × Nat)
  | [], _ => []
  | (k, w) :: t, q => if k = q then t else (k, w) :: aerase t q

def lookupStart : List (Nat × String) → Nat → Option String
  | [], _ => none
  | (c, q) :: t, cid => if c = cid then some q else lookupStart t cid

def removeStart : List (Nat × String) → Nat → List (Nat × String)
  | [], _ => []
  | (c, q) :: t, cid => if c = cid then t else (c, q) :: removeStart t cid

def lookupTimer : List (Nat × String) → Nat → Option String
  | [], _ => none
  | (c, q) :: t, tid => if c = tid then some q else lookupTimer t tid

/-- `clearTimeout`: remove the timer from the pending set if it is
still pending; a no-op on a fired or already-cleared timer. -/
def removeTimer : List (Nat × String) → Nat → List (Nat × String)
  | [], _ => []
  | (c, q) :: t, tid => if c = tid then t else (c, q) :: removeTimer t tid

def findPoll : List PollTask → Nat → Option PollTask
  | [], _ => none
  | p :: t, pid => if p.pid = pid then some p else findPoll t pid

def setPollPC : List PollTask → Nat → PollPC → List PollTask
  | [], _, _ => []
  | p :: t, pid, pc =>
    if p.pid = pid then { p with pc := pc } :: t else p :: setPollPC t pid pc

def removePoll : List PollTask → Nat → List PollTask
  | [], _ => []
  | p :: t, pid => if p.pid = pid then t else p :: removePoll t pid

/-- The synchronous prefix of `poll()` (lines 58-65): return at once if
`isShuttingDown`, otherwise spawn a poll task suspended on its
`receiveMessages` call. -/
def pollBegin (s : MState) (q : String) : MState × List MEvent :=
  if s.shuttingDown then (s, [])
  else ({ s with
            polls := s.polls ++ [⟨s.nextPoll, q, PollPC.awaitingReceive⟩],
            nextPoll := s.nextPoll + 1 },
        [MEvent.receiveIssued q])

/-- One atomic step of the manager.  A step that is not enabled in `s`
(a resume for a call that is not suspended, a fire of a timer that is
not pending, ...) leaves the state unchanged and emits nothing. -/
def runStep (s : MState) (st : Step) : MState × List MEvent :=
  match st with
  | Step.startCheck cid q =>
    match alookup s.intervalMap q with
    | some _ => (s, [MEvent.warnAlreadyPolling q])
    | none => ({ s with starts := s.starts ++ [(cid, q)] },
               [MEvent.ensureIssued q])
  | Step.startResume cid ok =>
    match lookupStart s.starts cid with
    | none => (s, [])
    | some q =>
      let s1 := { s with starts := removeStart s.starts cid }
      if ok then
        let p := pollBegin s1 q
        (p.1, MEvent.startedLog q :: p.2)
      else (s1, [MEvent.startRejected q])
  | Step.timerFire tid =>
    match lookupTimer s.pending tid with
    | none => (s, [])
    | some q => pollBegin { s with pending := removeTimer s.pending tid } q
  | Step.receiveDone pid =>
    match findPoll s.polls pid with
    | some p =>
      if p.pc = PollPC.awaitingReceive then
        ({ s with polls := setPollPC s.polls pid PollPC.dispatching }, [])
      else (s, [])
    | none => (s, [])
  | Step.dispatchDone pid =>
    match findPoll s.polls pid with
    | some p =>
      if p.pc = PollPC.dispatching then
        let s1 := { s with polls := removePoll s.polls pid }
        if s1.shuttingDown then (s1, [])
        else ({ s1 with
                  pending := s1.pending ++ [(s1.nextTimer, p.queue)],
                  intervalMap := aset s1.intervalMap p.queue s1.nextTimer,
                  nextTimer := s1.nextTimer + 1 },
              [MEvent.timerSet p.queue s1.nextTimer])
      else (s, [])
    | none => (s, [])
  | Step.stop q =>
    match alookup s.intervalMap q with
    | some tid =>
      ({ s with
           pending := removeTimer s.pending tid,
           intervalMap := aerase s.intervalMap q },
       [MEvent.stoppedLog q])
    | none => (s, [])
  | Step.shutdown =>
    let tids := s.intervalMap.map (fun kv => kv.2)
    ({ s with
         shuttingDown := true,
         pending := s.pending.filter (fun tv => !(tids.contains tv.1)),
         intervalMap := [] },
     s.intervalMap.map (fun kv => MEvent.stoppedLog kv.1))

def runSteps : MState → List Step → MState × List MEvent
  | s, [] => (s, [])
  | s, st :: rest =>
    let p := runStep s st
    let q := runSteps p.1 rest
    (q.1, p.2 ++ q.2)

/-- A freshly constructed service: empty map, flag down, nothing in
flight. -/
def initState : MState := ⟨[], false, [], [], [], 0, 0⟩

def isReceiveIssued : MEvent → Bool
  | MEvent.receiveIssued _ => true
  | _ => false

def isTimerSet : MEvent → Bool
  | MEvent.timerSet _ _ => true
  | _ => false

/-- `true` when a trace schedules no iteration and issues no receive. -/
def quiescentTrace (evs : List MEvent) : Bool :=
  evs.all (fun e => !(isReceiveIssued e) && !(isTimerSet e))

def countReceives : List MEvent → Nat
  | [] => 0
  | MEvent.receiveIssued _ :: t => countReceives t + 1
  | _ :: t => countReceives t

/-! ## Concrete inputs for witnesses and counterexamples -/

/-- Collaborators for the C1 witness: parsing never succeeds as JSON (not
reached: the text has no leading brace), the handler always fails, every
delete resolves. -/
def envW1 : Env Nat := ⟨fun _ => Except.error (), fun _ => Except.error (), fun _ => true⟩

def msgW1 : RawMessage := ⟨"m1", "hello", "p1", 5, 0, 0⟩

/-- Collaborators for the C2 witness: the handler always fails. -/
def envW2 : Env Nat := ⟨fun _ => Except.error (), fun _ => Except.error (), fun _ => true⟩

def msgW2 : RawMessage := ⟨"m2", "hello", "p2", 1, 0, 0⟩

/-- Collaborators for the C3 counterexample: the handler succeeds, the
first delete call of the dispatch rejects and the second resolves. -/
def envC3 : Env Nat := ⟨fun _ => Except.error (), fun _ => Except.ok (), fun n => n = 1⟩

/-- A message whose dequeue count has reached the poison threshold. -/
def msgC3 : RawMessage := ⟨"m3", "ok", "p3", 5, 0, 0⟩

/-- Collaborators for the C3 witness: the handler succeeds and deletes
resolve. -/
def envW3 : Env Nat := ⟨fun _ => Except.error (), fun _ => Except.ok (), fun _ => true⟩

def msgW3 : RawMessage := ⟨"m3w", "ok", "p3w", 1, 0, 0⟩

/-- Collaborators for the C6 counterexample: `JSON.parse` succeeds
exactly on the valid JSON text `\x7b"a":1\x7d` (42 standing for its
parsed value in the abstract value type), and throws on every other
string, consistent with the runtime's parser at every input the
computation touches. -/
def envC6 : Env Nat :=
  ⟨fun t => if t = "\x7b\"a\":1\x7d" then Except.ok 42 else Except.error (),
   fun _ => Except.ok (), fun _ => true⟩

/-- A message whose text is the valid JSON object `\x7b"a":1\x7d`,
starting with an opening brace. -/
def msgC6 : RawMessage := ⟨"m6", "\x7b\"a\":1\x7d", "p6", 1, 0, 0⟩

/-- Collaborators for the C10 witness: `JSON.parse` always throws. -/
def envW10 : Env Nat := ⟨fun _ => Except.error (), fun _ => Except.ok (), fun _ => true⟩

/-- A message whose text starts with an opening brace but is not valid
JSON. -/
def msgW10 : RawMessage := ⟨"m10", "\x7bbad", "p10", 1, 0, 0⟩

/-- C4 schedule: two `startPolling` calls for the same queue, the second
running its duplicate check while the first is still awaiting
`createQueueIfNotExists`; then both resume. -/
def schedC4 : List Step :=
  [Step.startCheck 0 "q4", Step.startCheck 1 "q4",
   Step.startResume 0 true, Step.startResume 1 true]

/-- C5 schedule: a second `startPolling` call for the same queue issued
after the first call returned but before the first poll iteration
completed (so no handle is registered yet). -/
def schedC5 : List Step :=
  [Step.startCheck 0 "q5", Step.startResume 0 true, Step.receiveDone 0,
   Step.startCheck 1 "q5", Step.startResume 1 true]

/-- C9 schedule prefix: start a loop, let its first iteration get past
the receive, then call `stopPolling` while that iteration is in
flight. -/
def schedC9pre : List Step :=
  [Step.startCheck 0 "q9", Step.startResume 0 true, Step.receiveDone 0,
   Step.stop "q9"]

/-- C9 schedule: after the stop, the in-flight iteration finishes and the
timer it scheduled fires. -/
def schedC9 : List Step := schedC9pre ++ [Step.dispatchDone 0, Step.timerFire 0]

/-- C7 witness state: one `startPolling` call suspended on
`createQueueIfNotExists`. -/
def stateC7 : MState := (runStep initState (Step.startCheck 0 "q7")).1

/-! ## Helper lemmas -/

theorem deliver_body {B : Type} (msg : RawMessage) (b : Sum String B) :
    (deliver msg b).body = b := rfl

theorem handlerBodies_append {B : Type} (a b : List (Event B)) :
    handlerBodies (a ++ b) = handlerBodies a ++ handlerBodies b := by
  induction a with
  | nil => simp [handlerBodies]
  | cons e t ih => cases e <;> simp [handlerBodies, ih]

theorem handlerBodies_catch {B : Type} (env : Env B) (maxDequeue : Nat)
    (msg : RawMessage) (evs : List (Event B)) (n : Nat) :
    handlerBodies (catchBranch env maxDequeue msg evs n).1 = handlerBodies evs := by
  unfold catchBranch
  split <;> simp [handlerBodies_append, handlerBodies]

/-- The handler sees exactly the body produced by the parsing step, and
is invoked exactly when that step succeeds. -/
theorem hb_dispatch {B : Type} (env : Env B) (maxDequeue : Nat) (msg : RawMessage) :
    handlerBodies (dispatchMessage env maxDequeue msg).1 =
      match parseBody env msg.messageText with
      | Except.ok b => [b]
      | Except.error _ => [] := by
  unfold dispatchMessage
  cases hp : parseBody env msg.messageText with
  | error e => simp [handlerBodies_catch, handlerBodies]
  | ok b =>
    cases hh : env.handler (deliver msg b) with
    | error e => simp [hh, handlerBodies_catch, handlerBodies, deliver_body]
    | ok u =>
      cases hd : env.deleteOk 0 <;>
        simp [hh, hd, handlerBodies_catch, handlerBodies, deliver_body]

theorem quiescentTrace_append (a b : List MEvent) :
    quiescentTrace (a ++ b) = (quiescentTrace a && quiescentTrace b) := by
  simp [quiescentTrace, List.all_append]

/-- Once the shutdown flag is set, no step can reset it, issue a receive,
or schedule a timer. -/
theorem runStep_shuttingDown (s : MState) (st : Step) (h : s.shuttingDown = true) :
    (runStep s st).1.shuttingDown = true ∧ quiescentTrace (runStep s st).2 = true := by
  cases st with
  | startCheck cid q =>
    simp only [runStep]
    cases alookup s.intervalMap q <;>
      simp [h, quiescentTrace, isReceiveIssued, isTimerSet]
  | startResume cid ok =>
    simp only [runStep]
    cases lookupStart s.starts cid with
    | none => simp [h, quiescentTrace]
    | some q =>
      cases ok <;> simp [h, pollBegin, quiescentTrace, isReceiveIssued, isTimerSet]
  | timerFire tid =>
    simp only [runStep]
    cases lookupTimer s.pending tid with
    | none => simp [h, quiescentTrace]
    | some q => simp [h, pollBegin, quiescentTrace]
  | receiveDone pid =>
    simp only [runStep]
    cases findPoll s.polls pid with
    | none => simp [h, quiescentTrace]
    | some p =>
      by_cases hpc : p.pc = PollPC.awaitingReceive <;> simp [h, hpc, quiescentTrace]
  | dispatchDone pid =>
    simp only [runStep]
    cases findPoll s.polls pid with
    | none => simp [h, quiescentTrace]
    | some p =>
      by_cases hpc : p.pc = PollPC.dispatching <;> simp [h, hpc, quiescentTrace]
  | stop q =>
    simp only [runStep]
    cases alookup s.intervalMap q <;>
      simp [h, quiescentTrace, isReceiveIssued, isTimerSet]
  | shutdown =>
    simp [runStep, quiescentTrace, isReceiveIssued, isTimerSet, List.all_map, Function.comp]
    intro x q n hmem hx
    subst hx
    exact ⟨rfl, rfl⟩

theorem quiescent_runSteps (s : MState) (steps : List Step) (h : s.shuttingDown = true) :
    quiescentTrace (runSteps s steps).2 = true := by
  induction steps generalizing s with
  | nil => simp [runSteps, quiescentTrace]
  | cons st rest ih =>
    have hs := runStep_shuttingDown s st h
    simp only [runSteps, quiescentTrace_append]
    rw [hs.2, ih (runStep s st).1 hs.1]
    simp

theorem shutdown_sets_flag (s : MState) :
    (runStep s Step.shutdown).1.shuttingDown = true := by
  simp [runStep]

theorem shutdown_idem (s : MState) :
    runStep (runStep s Step.shutdown).1 Step.shutdown = ((runStep s Step.shutdown).1, []) := by
  simp [runStep]

/-! ## Claim theorems -/

/-- Claim C1: for every dispatched message whose handler fails and whose
dequeue count at failure time is at least the effective
`maxDequeueCount`, a delete call with the message's id and pop receipt
is issued (poison removal), and the handler's error never escapes the
dispatch (only a failing poison delete can escape, and the iteration's
outer catch turns even that into a log entry, so nothing reaches the
poll loop's caller). -/
theorem c1_poison_delete_on_handler_failure {B : Type} (env : Env B) (om cm : Option Nat)
    (msg : RawMessage) (b : Sum String B)
    (hp : parseBody env msg.messageText = Except.ok b)
    (hh : env.handler (deliver msg b) = Except.error ())
    (hd : effMaxDequeueCount om cm ≤ msg.dequeueCount) :
    dispatchMessage env (effMaxDequeueCount om cm) msg =
      ([Event.handlerInvoked (deliver msg b), Event.logError msg.messageId,
        Event.logWarn msg.messageId, Event.deleteCall msg.messageId msg.popReceipt],
       if env.deleteOk 0 then none else some Thrown.deleteErr)
    ∧ Event.deleteCall msg.messageId msg.popReceipt
        ∈ (dispatchMessage env (effMaxDequeueCount om cm) msg).1
    ∧ (dispatchMessage env (effMaxDequeueCount om cm) msg).2 ≠ some Thrown.handlerErr
    ∧ (∀ qn, pollIterationOnce env (effMaxDequeueCount om cm) qn (Except.ok [msg]) =
        (dispatchMessage env (effMaxDequeueCount om cm) msg).1 ++
          (if env.deleteOk 0 then [] else [Event.logPollError qn])) := by
  have h1 : dispatchMessage env (effMaxDequeueCount om cm) msg =
      ([Event.handlerInvoked (deliver msg b), Event.logError msg.messageId,
        Event.logWarn msg.messageId, Event.deleteCall msg.messageId msg.popReceipt],
       if env.deleteOk 0 then none else some Thrown.deleteErr) := by
    unfold dispatchMessage
    rw [hp]
    simp [hh, catchBranch, hd]
  refine ⟨h1, ?_, ?_, ?_⟩
  · rw [h1]; simp
  · rw [h1]
    cases h : env.deleteOk 0 <;> simp
  · intro qn
    unfold pollIterationOnce
    simp only [processBatch]
    rw [h1]
    cases h : env.deleteOk 0 <;> simp

/-- Witness for C1 at a concrete input: a no-brace message with a failing
handler and dequeue count 5 against the all-defaults effective
threshold 5 gets a poison delete. -/
theorem c1_witness :
    effMaxDequeueCount none none ≤ msgW1.dequeueCount
    ∧ dispatchMessage envW1 (effMaxDequeueCount none none) msgW1 =
        ([Event.handlerInvoked (deliver msgW1 (Sum.inl "hello")),
          Event.logError msgW1.messageId, Event.logWarn msgW1.messageId,
          Event.deleteCall msgW1.messageId msgW1.popReceipt],
         if envW1.deleteOk 0 then none else some Thrown.deleteErr) :=
  ⟨by decide,
   (c1_poison_delete_on_handler_failure envW1 none none msgW1 (Sum.inl "hello")
     rfl rfl (by decide)).1⟩

/-- Claim C2: for every dispatched message whose handler fails with
dequeue count strictly below the effective `maxDequeueCount`, the
dispatch emits only the handler invocation and an error log: no delete
call at all is issued, nothing escapes, and (the event vocabulary having
no visibility-modifying operation, none occurring in the source) the
message's visibility timeout is untouched. -/
theorem c2_message_untouched_below_threshold {B : Type} (env : Env B) (om cm : Option Nat)
    (msg : RawMessage) (b : Sum String B)
    (hp : parseBody env msg.messageText = Except.ok b)
    (hh : env.handler (deliver msg b) = Except.error ())
    (hd : msg.dequeueCount < effMaxDequeueCount om cm) :
    dispatchMessage env (effMaxDequeueCount om cm) msg =
      ([Event.handlerInvoked (deliver msg b), Event.logError msg.messageId], none)
    ∧ ∀ i r, Event.deleteCall i r ∉ (dispatchMessage env (effMaxDequeueCount om cm) msg).1 := by
  have h1 : dispatchMessage env (effMaxDequeueCount om cm) msg =
      ([Event.handlerInvoked (deliver msg b), Event.logError msg.messageId], none) := by
    unfold dispatchMessage
    rw [hp]
    simp [hh, catchBranch, Nat.not_le.mpr hd]
  refine ⟨h1, ?_⟩
  intro i r
  rw [h1]
  simp

/-- Witness for C2 at a concrete input: dequeue count 1 below the default
threshold 5, failing handler, no delete call. -/
theorem c2_witness :
    msgW2.dequeueCount < effMaxDequeueCount none none
    ∧ dispatchMessage envW2 (effMaxDequeueCount none none) msgW2 =
        ([Event.handlerInvoked (deliver msgW2 (Sum.inl "hello")),
          Event.logError msgW2.messageId], none) :=
  ⟨by decide,
   (c2_message_untouched_below_threshold envW2 none none msgW2 (Sum.inl "hello")
     rfl rfl (by decide)).1⟩

/-- Counterexample to claim C3 as stated: with a succeeding handler, a
failing success-path delete, and dequeue count 5 at threshold 5, the
dispatch issues TWO delete calls — the claim's "no further delete is
attempted" after a failed post-success delete is false (the failure,
logged via the error log rather than a warning, falls into the catch
branch, whose poison policy issues a second delete). -/
theorem c3_counterexample :
    dispatchMessage envC3 5 msgC3 =
      ([Event.handlerInvoked (deliver msgC3 (Sum.inl "ok")),
        Event.deleteCall "m3" "p3", Event.logError "m3", Event.logWarn "m3",
        Event.deleteCall "m3" "p3"], none)
    ∧ countDeletes (dispatchMessage envC3 5 msgC3).1 = 2 := by decide

/-- Claim C3 (amended): when the handler succeeds, a delete call with the
message's exact id and pop receipt is issued, exactly once and before
the next message of the batch is dispatched, provided the delete
resolves; if that delete call itself fails, the failure is caught (not
re-raised to the dispatch) and logged via the error log, after which the
catch branch's poison policy applies: a second delete is attempted
exactly when the dequeue count has reached the threshold, and otherwise
no further delete occurs. -/
theorem c3_amended_delete_policy {B : Type} (env : Env B) (maxDequeue : Nat)
    (msg : RawMessage) (b : Sum String B) (rest : List RawMessage)
    (hp : parseBody env msg.messageText = Except.ok b)
    (hh : env.handler (deliver msg b) = Except.ok ()) :
    (env.deleteOk 0 = true →
      dispatchMessage env maxDequeue msg =
        ([Event.handlerInvoked (deliver msg b),
          Event.deleteCall msg.messageId msg.popReceipt,
          Event.logDebug msg.messageId], none)
      ∧ countDeletes (dispatchMessage env maxDequeue msg).1 = 1
      ∧ processBatch env maxDequeue (msg :: rest) =
          ([Event.handlerInvoked (deliver msg b),
            Event.deleteCall msg.messageId msg.popReceipt,
            Event.logDebug msg.messageId] ++ (processBatch env maxDequeue rest).1,
           (processBatch env maxDequeue rest).2))
    ∧ (env.deleteOk 0 = false →
      dispatchMessage env maxDequeue msg =
        (if maxDequeue ≤ msg.dequeueCount then
          ([Event.handlerInvoked (deliver msg b),
            Event.deleteCall msg.messageId msg.popReceipt,
            Event.logError msg.messageId, Event.logWarn msg.messageId,
            Event.deleteCall msg.messageId msg.popReceipt],
           if env.deleteOk 1 then none else some Thrown.deleteErr)
         else
          ([Event.handlerInvoked (deliver msg b),
            Event.deleteCall msg.messageId msg.popReceipt,
            Event.logError msg.messageId], none))) := by
  constructor
  · intro hdel
    have h1 : dispatchMessage env maxDequeue msg =
        ([Event.handlerInvoked (deliver msg b),
          Event.deleteCall msg.messageId msg.popReceipt,
          Event.logDebug msg.messageId], none) := by
      unfold dispatchMessage
      rw [hp]
      simp [hh, hdel]
    refine ⟨h1, ?_, ?_⟩
    · rw [h1]; simp [countDeletes]
    · simp only [processBatch]
      rw [h1]
  · intro hdel
    unfold dispatchMessage
    rw [hp]
    simp [hh, hdel, catchBranch]

/-- Witness for the amended C3 at a concrete input: succeeding handler
and resolving delete give exactly the success trace. -/
theorem c3_witness :
    envW3.deleteOk 0 = true
    ∧ dispatchMessage envW3 5 msgW3 =
        ([Event.handlerInvoked (deliver msgW3 (Sum.inl "ok")),
          Event.deleteCall msgW3.messageId msgW3.popReceipt,
          Event.logDebug msgW3.messageId], none) :=
  ⟨rfl,
   ((c3_amended_delete_policy envW3 5 msgW3 (Sum.inl "ok") [] rfl rfl).1 rfl).1⟩

/-- Claim C4 (code bug evaluation): two `startPolling` calls for the same
queue, the second running its duplicate check while the first is still
awaiting `createQueueIfNotExists`.  Both pass the `pollingIntervals`
guard (a handle is only stored at the end of a poll iteration,
line 124), so both calls begin a polling cycle: the trace carries two
`receiveMessages` calls for the queue and two live poll tasks remain. -/
theorem c4_duplicate_start_race :
    (runSteps initState schedC4).2
      = [MEvent.ensureIssued "q4", MEvent.ensureIssued "q4",
         MEvent.startedLog "q4", MEvent.receiveIssued "q4",
         MEvent.startedLog "q4", MEvent.receiveIssued "q4"]
    ∧ (runSteps initState schedC4).1.polls
        = [⟨0, "q4", PollPC.awaitingReceive⟩, ⟨1, "q4", PollPC.awaitingReceive⟩] := by
  decide

/-- Claim C5 (code bug evaluation): a second `startPolling` call for the
same queue, issued after the first call returned but before the first
poll iteration completed, is NOT rejected: no `AlreadyPolling` warning
is emitted and a second polling cycle begins. -/
theorem c5_second_start_not_rejected :
    (runSteps initState schedC5).2
      = [MEvent.ensureIssued "q5", MEvent.startedLog "q5", MEvent.receiveIssued "q5",
         MEvent.ensureIssued "q5", MEvent.startedLog "q5", MEvent.receiveIssued "q5"]
    ∧ MEvent.warnAlreadyPolling "q5" ∉ (runSteps initState schedC5).2
    ∧ (runSteps initState schedC5).1.polls.length = 2 := by
  decide

/-- Counterexample to claim C6 as stated: a message whose text is the
valid JSON object `\x7b"a":1\x7d` is JSON-parsed (the text starts with a
brace), so the handler receives the parsed value, not the raw payload
string — the engine does interpret content. -/
theorem c6_counterexample :
    handlerBodies (dispatchMessage envC6 5 msgC6).1 = [Sum.inr 42]
    ∧ (Sum.inr 42 : Sum String Nat) ≠ Sum.inl "\x7b\"a\":1\x7d" := by decide

/-- Claim C6 (amended): the engine passes the message text to the handler
unchanged unless the text starts with the opening-brace character; in
that case it attempts `JSON.parse` and passes the parsed value instead,
and a parse failure means the handler is never invoked for that
delivery. -/
theorem c6_amended_body_delivery {B : Type} (env : Env B) (maxDequeue : Nat)
    (msg : RawMessage) :
    handlerBodies (dispatchMessage env maxDequeue msg).1 =
      if startsWithLbrace msg.messageText then
        (match env.jsonParse msg.messageText with
         | Except.ok v => [Sum.inr v]
         | Except.error _ => [])
      else [Sum.inl msg.messageText] := by
  rw [hb_dispatch]
  unfold parseBody
  cases hs : startsWithLbrace msg.messageText <;> simp
  cases hj : env.jsonParse msg.messageText <;> simp [hj, Except.map]

/-- Counterexample to claim C7 as stated: when `createQueueIfNotExists`
rejects, the awaited call at line 56 re-raises inside `startPolling`,
which therefore returns a rejected promise to its caller. -/
theorem c7_counterexample :
    (runSteps initState [Step.startCheck 0 "q7", Step.startResume 0 false]).2
      = [MEvent.ensureIssued "q7", MEvent.startRejected "q7"] := by decide

/-- Claim C7 (amended): `stopPolling` and `onModuleDestroy` never throw,
and `startPolling` rejects only when its initial
`createQueueIfNotExists` call fails — no other step of the manager can
produce a rejection that reaches a caller; all poll-cycle failures
surface through logging. -/
theorem c7_amended_throw_only_from_ensure (s : MState) (st : Step) (q : String)
    (h : MEvent.startRejected q ∈ (runStep s st).2) :
    ∃ cid, st = Step.startResume cid false := by
  cases st with
  | startCheck cid qq =>
    simp only [runStep] at h
    cases hl : alookup s.intervalMap qq <;> simp [hl] at h
  | startResume cid ok =>
    refine ⟨cid, ?_⟩
    simp only [runStep] at h
    cases hl : lookupStart s.starts cid with
    | none => simp [hl] at h
    | some qq =>
      cases ok with
      | true =>
        simp [hl, pollBegin] at h
        split at h <;> simp at h
      | false => rfl
  | timerFire tid =>
    simp only [runStep] at h
    cases hl : lookupTimer s.pending tid with
    | none => simp [hl] at h
    | some qq =>
      simp [hl, pollBegin] at h
      split at h <;> simp at h
  | receiveDone pid =>
    simp only [runStep] at h
    cases hl : findPoll s.polls pid with
    | none => simp [hl] at h
    | some p =>
      simp [hl] at h
      split at h <;> simp at h
  | dispatchDone pid =>
    simp only [runStep] at h
    cases hl : findPoll s.polls pid with
    | none => simp [hl] at h
    | some p =>
      simp [hl] at h
      split at h
      · split at h <;> simp at h
      · simp at h
  | stop qq =>
    simp only [runStep] at h
    cases hl : alookup s.intervalMap qq <;> simp [hl] at h
  | shutdown =>
    simp only [runStep] at h
    simp [List.mem_map] at h

/-- Witness for the amended C7: the concrete rejecting resume step is of
the shape the theorem asserts. -/
theorem c7_witness :
    MEvent.startRejected "q7" ∈ (runStep stateC7 (Step.startResume 0 false)).2
    ∧ ∃ cid, Step.startResume 0 false = Step.startResume cid false :=
  ⟨by decide,
   c7_amended_throw_only_from_ensure stateC7 (Step.startResume 0 false) "q7" (by decide)⟩

/-- Claim C8: from any state, once `onModuleDestroy` has run, no schedule
of further steps ever issues a `receiveMessages` call or schedules a
timer for any queue — a cycle sleeping on a cleared timer cannot fire,
a fired-but-unstarted callback dies at the line-59 check, and an
iteration in flight skips the line-122 reschedule — and a second
`onModuleDestroy` is a no-op (idempotence). -/
theorem c8_shutdown_quiescent_and_idempotent (s : MState) (steps : List Step) :
    quiescentTrace (runSteps (runStep s Step.shutdown).1 steps).2 = true
    ∧ runStep (runStep s Step.shutdown).1 Step.shutdown
        = ((runStep s Step.shutdown).1, []) :=
  ⟨quiescent_runSteps (runStep s Step.shutdown).1 steps (shutdown_sets_flag s),
   shutdown_idem s⟩

/-- Claim C9 (code bug evaluation): `stopPolling` called while the
queue's iteration is in flight does not stop the loop.  Before the stop
the cycle has issued one receive; the stop finds no handle (none is
registered until line 124 runs) and does nothing — not even its log —
and the iteration then reschedules itself: a further receive occurs and
a live poll task remains after the stop. -/
theorem c9_stop_during_inflight_iteration :
    countReceives (runSteps initState schedC9pre).2 = 1
    ∧ MEvent.stoppedLog "q9" ∉ (runSteps initState schedC9pre).2
    ∧ countReceives (runSteps initState schedC9).2 = 2
    ∧ (runSteps initState schedC9).1.polls = [⟨1, "q9", PollPC.awaitingReceive⟩] := by
  decide

/-- Claim C10: a message whose text starts with the opening-brace
character but fails `JSON.parse` takes the failure path without the
handler ever being invoked: the parse error is caught by the same catch
branch as a handler failure, so the message is left for redelivery or
poison-deleted according to its dequeue count. -/
theorem c10_invalid_json_failure_path {B : Type} (env : Env B) (maxDequeue : Nat)
    (msg : RawMessage)
    (hs : startsWithLbrace msg.messageText = true)
    (he : env.jsonParse msg.messageText = Except.error ()) :
    (∀ dm, Event.handlerInvoked dm ∉ (dispatchMessage env maxDequeue msg).1)
    ∧ dispatchMessage env maxDequeue msg =
        (if maxDequeue ≤ msg.dequeueCount then
          ([Event.logError msg.messageId, Event.logWarn msg.messageId,
            Event.deleteCall msg.messageId msg.popReceipt],
           if env.deleteOk 0 then none else some Thrown.deleteErr)
         else ([Event.logError msg.messageId], none)) := by
  have h1 : dispatchMessage env maxDequeue msg =
      (if maxDequeue ≤ msg.dequeueCount then
        ([Event.logError msg.messageId, Event.logWarn msg.messageId,
          Event.deleteCall msg.messageId msg.popReceipt],
         if env.deleteOk 0 then none else some Thrown.deleteErr)
       else ([Event.logError msg.messageId], none)) := by
    unfold dispatchMessage parseBody
    rw [hs]
    simp [he, Except.map, catchBranch]
  refine ⟨?_, h1⟩
  intro dm
  rw [h1]
  split <;> simp

/-- Witness for C10 at a concrete input: invalid JSON with a leading
brace and dequeue count below the threshold yields only the error log
and no handler invocation. -/
theorem c10_witness :
    startsWithLbrace msgW10.messageText = true
    ∧ dispatchMessage envW10 5 msgW10 = ([Event.logError msgW10.messageId], none) :=
  ⟨by decide,
   by
     have h := (c10_invalid_json_failure_path envW10 5 msgW10 (by decide) rfl).2
     simpa using h⟩

end AzureStorageQueue
